import Mathlib

/-!
Shallow embedding of src/router.ts of the functions-framework-nodejs fork.

The file models registerFunctionRoutes and executeHandler. A request is
served by walking the registered route list in registration order, exactly
as the Express application dispatches: the favicon/robots suppression
middleware, the completion-tracker middleware, and the catch-all route that
constructs the normalized handler and runs it through executeHandler.

Side effects (log calls, observer attachment, handler construction and
invocation, the 404 short-circuit response) are recorded as an event trace
in chronological order. The high-resolution timer is modelled by the
wall-clock nanoseconds d consumed by the handler: process.hrtime of the
start instant yields the pair (d / 1e9, d % 1e9), and the code logs
component 1 of that pair divided by one million, as a rational number
(JavaScript float division; rationals keep the fractional part exact).
-/

namespace FunctionsFramework

/-- Signature types of user functions, from src/types.ts as used by the router. -/
inductive SignatureType
  | http
  | event
  | cloudEvent
deriving DecidableEq, Repr

/-- The parts of an Express request the router inspects: method, path and the
host header (absent modelled as none). -/
structure Request where
  method : String
  path : String
  host : Option String
deriving DecidableEq, Repr

/-- The parts of an Express response the router touches: status code, body,
and the res.locals.functionExecutionFinished flag set by the tracker observer. -/
structure Response where
  statusCode : Nat
  body : Option String
  functionExecutionFinished : Bool
deriving DecidableEq, Repr

/-- An error thrown or a rejection produced by the normalized handler. -/
inductive HandlerError
  | err (msg : String)
deriving DecidableEq, Repr

/-- Observable events of one request, in chronological order. -/
inductive Ev
  | observerAttached
  | handlerConstructed
  | logStarted
  | handlerInvoked
  | logFinished (ms : ℚ) (status : Nat)
  | respond404Empty
deriving DecidableEq, Repr

/-- Nanoseconds per second, the base of the second component of process.hrtime. -/
def NS_PER_SEC : Nat := 1000000000

/-- process.hrtime(hrstart) after d nanoseconds: a (seconds, nanoseconds) pair
with the nanosecond component strictly below 1e9. -/
def hrtimeDiff (d : Nat) : Nat × Nat := (d / NS_PER_SEC, d % NS_PER_SEC)

/-- The value the code passes to logExecutionFinished: hrend[1] / 1_000_000,
computed with exact (float-like) division, so possibly fractional. -/
def elapsedLoggedMs (d : Nat) : ℚ := (((hrtimeDiff d).2 : ℚ)) / 1000000

/-- SHOULD_LOG_EXECUTION_TIME: req.headers.host !== 'cloudfunctions.net'.
A missing header (none) is not equal to the literal, so logging is enabled. -/
def shouldLogExecutionTime (req : Request) : Bool :=
  req.host != some "cloudfunctions.net"

/-- The behaviour of a normalized handler: given the request and the current
response state it either succeeds with an updated response or fails. -/
def HandlerBehaviour : Type := Request → Response → Except HandlerError Response

/-- executeHandler from router.ts. When SHOULD_LOG_EXECUTION_TIME holds it
takes hrstart, logs the started event, awaits the handler, and on success
logs the finished event with hrend[1] / 1e6 and res.statusCode; a handler
error skips the finished log and propagates unmodified (no try/catch).
When logging is disabled it just executes the handler. The parameter d is
the wall-clock nanoseconds the handler consumes. -/
def executeHandler (h : HandlerBehaviour) (d : Nat) (req : Request)
    (res : Response) : Except HandlerError Response × List Ev :=
  if shouldLogExecutionTime req then
    match h req res with
    | Except.ok res2 =>
        (Except.ok res2,
         [Ev.logStarted, Ev.handlerInvoked,
          Ev.logFinished (elapsedLoggedMs d) res2.statusCode])
    | Except.error e =>
        (Except.error e, [Ev.logStarted, Ev.handlerInvoked])
  else
    (h req res, [Ev.handlerInvoked])

/-- Route path patterns used by the router: the favicon/robots pattern and
the catch-all pattern. -/
inductive RoutePattern
  | faviconRobots
  | catchAll
deriving DecidableEq, Repr

/-- What a registered route does when it matches. -/
inductive RouteAction
  | suppress
  | tracker
  | invoke
deriving DecidableEq, Repr

/-- A route binding: an optional method filter (none for app.use and app.all,
some "POST" for app.post), a path pattern, and an action. -/
structure Route where
  methodFilter : Option String
  pattern : RoutePattern
  action : RouteAction
deriving DecidableEq, Repr

/-- Whether a path matches a pattern. -/
def patternMatches : RoutePattern → String → Bool
  | RoutePattern.faviconRobots, p => p == "/favicon.ico" || p == "/robots.txt"
  | RoutePattern.catchAll, _ => true

/-- Whether a route binding matches a request. -/
def routeMatches (r : Route) (req : Request) : Bool :=
  (match r.methodFilter with
   | none => true
   | some m => req.method == m) && patternMatches r.pattern req.path

/-- registerFunctionRoutes from router.ts, as the route list it registers on
the Express application, in registration order. HTTP registers the
favicon/robots suppression, the completion tracker, and the catch-all
invoking route; EVENT and CLOUD_EVENT register a single POST catch-all. -/
def registerFunctionRoutes : SignatureType → List Route
  | SignatureType.http =>
      [⟨none, RoutePattern.faviconRobots, RouteAction.suppress⟩,
       ⟨none, RoutePattern.catchAll, RouteAction.tracker⟩,
       ⟨none, RoutePattern.catchAll, RouteAction.invoke⟩]
  | SignatureType.event =>
      [⟨some "POST", RoutePattern.catchAll, RouteAction.invoke⟩]
  | SignatureType.cloudEvent =>
      [⟨some "POST", RoutePattern.catchAll, RouteAction.invoke⟩]

/-- Express dispatch over a route list: the first matching route handles the
request. The suppression route ends the response with status 404 and an
empty body; the tracker attaches the on-finished observer and calls next;
the invoking route constructs the normalized handler (makeHttpHandler,
possibly around wrapEventFunction or wrapCloudEventFunction) and runs
executeHandler. A request matching no route yields none, leaving the
transport default in charge. -/
def serveRoutes (h : HandlerBehaviour) (d : Nat) (req : Request)
    (res : Response) :
    List Route → Option (Except HandlerError Response) × List Ev
  | [] => (none, [])
  | r :: rest =>
    if routeMatches r req then
      match r.action with
      | RouteAction.suppress =>
          (some (Except.ok {res with statusCode := 404, body := none}),
           [Ev.respond404Empty])
      | RouteAction.tracker =>
          let k := serveRoutes h d req res rest
          (k.1, Ev.observerAttached :: k.2)
      | RouteAction.invoke =>
          let ex := executeHandler h d req res
          (some ex.1, Ev.handlerConstructed :: ex.2)
    else serveRoutes h d req res rest

/-- One request served through the routes registered for a signature type. -/
def serve (sig : SignatureType) (h : HandlerBehaviour) (d : Nat)
    (req : Request) (res : Response) :
    Option (Except HandlerError Response) × List Ev :=
  serveRoutes h d req res (registerFunctionRoutes sig)

/-- Whether an event is a timing-instrumentation log call. -/
def isTimingLog : Ev → Bool
  | Ev.logStarted => true
  | Ev.logFinished _ _ => true
  | _ => false

/-- Whether a trace contains any timing log call. -/
def hasTimingLog (l : List Ev) : Bool := l.any isTimingLog

/-- Whether an event is a finished log call. -/
def isFinishedLog : Ev → Bool
  | Ev.logFinished _ _ => true
  | _ => false

/-- A handler behaviour that succeeds leaving the response unchanged. -/
def okHandler : HandlerBehaviour := fun _ res => Except.ok res

/-- A concrete initial response state. -/
def res200 : Response := ⟨200, none, false⟩

/-- C4: for every signature type and every request whose host header is the
literal string cloudfunctions.net, the served trace contains no timing log
call at all; and for every request, SHOULD_LOG_EXECUTION_TIME is exactly the
boolean inequality of the host header with that literal, so timing is enabled
for every other host value, an absent header included. -/
theorem timing_suppressed_iff_host_is_cloudfunctions
    (sig : SignatureType) (h : HandlerBehaviour) (d : Nat)
    (m p : String) (res : Response) :
    hasTimingLog
      (serve sig h d ⟨m, p, some "cloudfunctions.net"⟩ res).2 = false ∧
    (∀ req : Request,
      shouldLogExecutionTime req = (req.host != some "cloudfunctions.net")) := by
  constructor
  · cases sig <;>
      simp only [serve, registerFunctionRoutes, serveRoutes, routeMatches,
        patternMatches, shouldLogExecutionTime, executeHandler] <;>
      split <;>
      simp_all [hasTimingLog, isTimingLog, serveRoutes, routeMatches,
        patternMatches, executeHandler, shouldLogExecutionTime]
  · intro req
    rfl

/-- C5: for the HTTP signature type a request to /favicon.ico or /robots.txt
yields status 404 with an empty body and the trace holds only the 404
short-circuit event, so the user function never runs; the EVENT and
CLOUD_EVENT route lists register no suppression route. -/
theorem favicon_robots_suppressed_only_for_http
    (h : HandlerBehaviour) (d : Nat) (m : String) (host : Option String)
    (res : Response) :
    serve SignatureType.http h d ⟨m, "/favicon.ico", host⟩ res =
      (some (Except.ok {res with statusCode := 404, body := none}),
       [Ev.respond404Empty]) ∧
    serve SignatureType.http h d ⟨m, "/robots.txt", host⟩ res =
      (some (Except.ok {res with statusCode := 404, body := none}),
       [Ev.respond404Empty]) ∧
    (registerFunctionRoutes SignatureType.event).all
      (fun r => r.action != RouteAction.suppress) = true ∧
    (registerFunctionRoutes SignatureType.cloudEvent).all
      (fun r => r.action != RouteAction.suppress) = true := by
  refine ⟨?_, ?_, by decide, by decide⟩ <;>
    simp [serve, registerFunctionRoutes, serveRoutes, routeMatches,
      patternMatches]

/-- C9: the elapsed value passed to the finished log is the sub-second
nanosecond remainder of the high-resolution timer divided by one million:
for a successful handler taking d nanoseconds (host header absent, so timing
is on), the finished event carries (d mod 1e9) / 1e6, which is always
strictly below 1000 milliseconds; it can be fractional (d = 2500000 gives
5/2) and the whole-seconds component is discarded (d = 3.25e9 gives 250). -/
theorem finished_log_carries_subsecond_remainder
    (h : HandlerBehaviour) (d : Nat) (m p : String) (res res2 : Response)
    (hok : h ⟨m, p, none⟩ res = Except.ok res2) :
    (executeHandler h d ⟨m, p, none⟩ res).2 =
      [Ev.logStarted, Ev.handlerInvoked,
       Ev.logFinished (((d % 1000000000 : Nat) : ℚ) / 1000000)
         res2.statusCode] ∧
    elapsedLoggedMs d < 1000 ∧
    elapsedLoggedMs 2500000 = 5 / 2 ∧
    elapsedLoggedMs 3250000000 = 250 := by
  refine ⟨?_, ?_, by norm_num [elapsedLoggedMs, hrtimeDiff, NS_PER_SEC],
    by norm_num [elapsedLoggedMs, hrtimeDiff, NS_PER_SEC]⟩
  · simp [executeHandler, shouldLogExecutionTime, hok, elapsedLoggedMs,
      hrtimeDiff, NS_PER_SEC]
  · have hlt : (hrtimeDiff d).2 < NS_PER_SEC :=
      Nat.mod_lt _ (by norm_num [NS_PER_SEC])
    have hq : ((hrtimeDiff d).2 : ℚ) < 1000000000 := by
      have : (NS_PER_SEC : ℚ) = 1000000000 := by norm_num [NS_PER_SEC]
      exact this ▸ (by exact_mod_cast hlt)
    calc elapsedLoggedMs d = ((hrtimeDiff d).2 : ℚ) / 1000000 := rfl
      _ < 1000000000 / 1000000 := by gcongr
      _ = 1000 := by norm_num

/-- C9 witness: instantiating the theorem at a concrete succeeding handler. -/
theorem finished_log_carries_subsecond_remainder_witness :
    (executeHandler okHandler 2500000 ⟨"GET", "/", none⟩ res200).2 =
      [Ev.logStarted, Ev.handlerInvoked,
       Ev.logFinished (((2500000 % 1000000000 : Nat) : ℚ) / 1000000) 200] ∧
    elapsedLoggedMs 2500000 < 1000 ∧
    elapsedLoggedMs 2500000 = 5 / 2 ∧
    elapsedLoggedMs 3250000000 = 250 := by
  have := finished_log_carries_subsecond_remainder okHandler 2500000
    "GET" "/" res200 res200 rfl
  simpa [res200] using this

/-- C10: the timing-suppression decision is strict string equality on the raw
host header: a different letter case, a port suffix, a subdomain, or
surrounding whitespace all enable timing, and in general
SHOULD_LOG_EXECUTION_TIME is the boolean inequality with the literal. -/
theorem suppression_is_strict_string_equality (m p : String) :
    shouldLogExecutionTime ⟨m, p, some "CloudFunctions.net"⟩ = true ∧
    shouldLogExecutionTime ⟨m, p, some "cloudfunctions.net:8080"⟩ = true ∧
    shouldLogExecutionTime ⟨m, p, some "sub.cloudfunctions.net"⟩ = true ∧
    shouldLogExecutionTime ⟨m, p, some " cloudfunctions.net"⟩ = true ∧
    shouldLogExecutionTime ⟨m, p, some "cloudfunctions.net "⟩ = true ∧
    shouldLogExecutionTime ⟨m, p, some "cloudfunctions.net"⟩ = false ∧
    (∀ host : Option String,
      shouldLogExecutionTime ⟨m, p, host⟩ =
        (host != some "cloudfunctions.net")) := by
  refine ⟨rfl, rfl, rfl, rfl, rfl, rfl, fun host => rfl⟩

/-- C3: an error from the normalized handler is returned by executeHandler
unmodified (no catch, no wrapping, no swallowing): the result is exactly the
handler error, and no finished log event appears in the trace of that
request, whether timing is enabled or not. -/
theorem handler_error_propagates_unmodified
    (h : HandlerBehaviour) (d : Nat) (req : Request) (res : Response)
    (e : HandlerError) (herr : h req res = Except.error e) :
    (executeHandler h d req res).1 = Except.error e ∧
    ((executeHandler h d req res).2.any isFinishedLog) = false := by
  unfold executeHandler
  split <;> simp [herr, isFinishedLog]

/-- C3 witness: a concretely failing handler at a concrete request. -/
theorem handler_error_propagates_unmodified_witness :
    (executeHandler (fun _ _ => Except.error (HandlerError.err "boom")) 7
        ⟨"GET", "/x", none⟩ res200).1 =
      Except.error (HandlerError.err "boom") ∧
    ((executeHandler (fun _ _ => Except.error (HandlerError.err "boom")) 7
        ⟨"GET", "/x", none⟩ res200).2.any isFinishedLog) = false :=
  handler_error_propagates_unmodified
    (fun _ _ => Except.error (HandlerError.err "boom")) 7
    ⟨"GET", "/x", none⟩ res200 (HandlerError.err "boom") rfl

/-- C6: for the HTTP signature type, the completion-tracker middleware is
registered before the catch-all invoking route, and on every request whose
path is not one of the suppressed ones the observer-attached event occurs
strictly before the handler-invoked event in the trace. -/
theorem observer_attached_before_handler_invoked
    (h : HandlerBehaviour) (d : Nat) (m p : String) (host : Option String)
    (res : Response) (hfav : p ≠ "/favicon.ico") (hrob : p ≠ "/robots.txt") :
    registerFunctionRoutes SignatureType.http =
      [⟨none, RoutePattern.faviconRobots, RouteAction.suppress⟩,
       ⟨none, RoutePattern.catchAll, RouteAction.tracker⟩,
       ⟨none, RoutePattern.catchAll, RouteAction.invoke⟩] ∧
    [Ev.observerAttached, Ev.handlerInvoked].Sublist
      (serve SignatureType.http h d ⟨m, p, host⟩ res).2 := by
  refine ⟨rfl, ?_⟩
  have hf : (p == "/favicon.ico") = false := by simp [hfav]
  have hr : (p == "/robots.txt") = false := by simp [hrob]
  cases hres : h ⟨m, p, host⟩ res <;>
    cases hl : shouldLogExecutionTime ⟨m, p, host⟩ <;>
      simp [serve, registerFunctionRoutes, serveRoutes, routeMatches,
        patternMatches, hf, hr, executeHandler, hres, hl]

/-- C6 witness: a concrete non-suppressed request through the HTTP routes. -/
theorem observer_attached_before_handler_invoked_witness :
    registerFunctionRoutes SignatureType.http =
      [⟨none, RoutePattern.faviconRobots, RouteAction.suppress⟩,
       ⟨none, RoutePattern.catchAll, RouteAction.tracker⟩,
       ⟨none, RoutePattern.catchAll, RouteAction.invoke⟩] ∧
    [Ev.observerAttached, Ev.handlerInvoked].Sublist
      (serve SignatureType.http okHandler 5 ⟨"GET", "/f", none⟩ res200).2 :=
  observer_attached_before_handler_invoked okHandler 5 "GET" "/f" none
    res200 (by decide) (by decide)

/-- C7: the EVENT and CLOUD_EVENT signature types register exactly one route
binding, a POST catch-all that constructs and invokes the handler, and a
request whose method is not POST matches no binding of this layer: it is
served as none with an empty trace. -/
theorem event_types_register_single_post_catchall
    (h : HandlerBehaviour) (d : Nat) (m p : String) (host : Option String)
    (res : Response) (hm : m ≠ "POST") :
    registerFunctionRoutes SignatureType.event =
      [⟨some "POST", RoutePattern.catchAll, RouteAction.invoke⟩] ∧
    registerFunctionRoutes SignatureType.cloudEvent =
      [⟨some "POST", RoutePattern.catchAll, RouteAction.invoke⟩] ∧
    serve SignatureType.event h d ⟨m, p, host⟩ res = (none, []) ∧
    serve SignatureType.cloudEvent h d ⟨m, p, host⟩ res = (none, []) := by
  refine ⟨rfl, rfl, ?_, ?_⟩ <;>
    simp [serve, registerFunctionRoutes, serveRoutes, routeMatches,
      patternMatches, hm]

/-- C7 witness: a concrete GET request against the event route lists. -/
theorem event_types_register_single_post_catchall_witness :
    registerFunctionRoutes SignatureType.event =
      [⟨some "POST", RoutePattern.catchAll, RouteAction.invoke⟩] ∧
    registerFunctionRoutes SignatureType.cloudEvent =
      [⟨some "POST", RoutePattern.catchAll, RouteAction.invoke⟩] ∧
    serve SignatureType.event okHandler 3 ⟨"GET", "/", none⟩ res200 =
      (none, []) ∧
    serve SignatureType.cloudEvent okHandler 3 ⟨"GET", "/", none⟩ res200 =
      (none, []) :=
  event_types_register_single_post_catchall okHandler 3 "GET" "/" none
    res200 (by decide)

/-- C8: for every request whose host header is not the literal (a missing
header included), executeHandler logs exactly one started event, placed
before the handler invocation, and on successful completion the trace is
exactly started, invoked, then one finished event carrying a non-negative
millisecond duration and the status code of the response the handler
settled with. -/
theorem started_once_then_finished_once_on_success
    (h : HandlerBehaviour) (d : Nat) (req : Request) (res : Response)
    (hhost : req.host ≠ some "cloudfunctions.net") :
    (executeHandler h d req res).2.count Ev.logStarted = 1 ∧
    [Ev.logStarted, Ev.handlerInvoked].Sublist
      (executeHandler h d req res).2 ∧
    (∀ res2 : Response, h req res = Except.ok res2 →
      (executeHandler h d req res).2 =
        [Ev.logStarted, Ev.handlerInvoked,
         Ev.logFinished (elapsedLoggedMs d) res2.statusCode] ∧
      ((executeHandler h d req res).2.countP isFinishedLog) = 1 ∧
      0 ≤ elapsedLoggedMs d) := by
  have hlog : shouldLogExecutionTime req = true := by
    simp [shouldLogExecutionTime, hhost]
  unfold executeHandler
  rw [hlog, if_pos rfl]
  cases hres : h req res with
  | ok res2 =>
      refine ⟨by simp [List.count_cons], by simp, ?_⟩
      intro r2 hok
      injection hok with h2
      subst h2
      refine ⟨rfl, by simp [isFinishedLog], ?_⟩
      unfold elapsedLoggedMs
      positivity
  | error e =>
      refine ⟨by simp [List.count_cons], by simp, ?_⟩
      intro r2 hok
      exact absurd hok (by simp)

/-- C8 witness: a concrete request with an absent host header and a
succeeding handler. -/
theorem started_once_then_finished_once_on_success_witness :
    (executeHandler okHandler 9 ⟨"GET", "/", none⟩ res200).2.count
        Ev.logStarted = 1 ∧
    [Ev.logStarted, Ev.handlerInvoked].Sublist
      (executeHandler okHandler 9 ⟨"GET", "/", none⟩ res200).2 ∧
    ((executeHandler okHandler 9 ⟨"GET", "/", none⟩ res200).2 =
        [Ev.logStarted, Ev.handlerInvoked,
         Ev.logFinished (elapsedLoggedMs 9) 200] ∧
      ((executeHandler okHandler 9 ⟨"GET", "/", none⟩ res200).2.countP
        isFinishedLog) = 1 ∧
      0 ≤ elapsedLoggedMs 9) := by
  have h := started_once_then_finished_once_on_success okHandler 9
    ⟨"GET", "/", none⟩ res200 (by simp)
  exact ⟨h.1, h.2.1, h.2.2 res200 rfl⟩

/-- C1 counterexample: a successful invocation taking 2500000 nanoseconds
(2.5 milliseconds) with timing enabled passes 5/2 to the finished log, a
value that is not a whole number of milliseconds (its denominator is 2) and
differs from 2, the truncation the claim prescribes: the code divides the
nanosecond remainder by one million without truncating. -/
theorem finished_ms_not_whole_counterexample :
    (executeHandler okHandler 2500000 ⟨"GET", "/", none⟩ res200).2 =
      [Ev.logStarted, Ev.handlerInvoked, Ev.logFinished (5 / 2) 200] ∧
    ((5 : ℚ) / 2).den = 2 ∧
    (5 : ℚ) / 2 ≠ 2 := by
  refine ⟨?_, by norm_num [Rat.den_div_eq_of_coprime], by norm_num⟩
  simp [executeHandler, okHandler, shouldLogExecutionTime, elapsedLoggedMs,
    hrtimeDiff, NS_PER_SEC, res200]
  norm_num

/-- C1 amended: for every invocation with timing enabled, after the handler
settles successfully the executor passes to the finished log the sub-second
nanosecond remainder of the elapsed time divided by one million, a possibly
fractional number of milliseconds, together with the status code of the
response the handler settled with. -/
theorem finished_log_elapsed_and_status
    (h : HandlerBehaviour) (d : Nat) (req : Request) (res res2 : Response)
    (hhost : req.host ≠ some "cloudfunctions.net")
    (hok : h req res = Except.ok res2) :
    (executeHandler h d req res).2 =
      [Ev.logStarted, Ev.handlerInvoked,
       Ev.logFinished (((d % NS_PER_SEC : Nat) : ℚ) / 1000000)
         res2.statusCode] := by
  have hlog : shouldLogExecutionTime req = true := by
    simp [shouldLogExecutionTime, hhost]
  simp [executeHandler, hlog, hok, elapsedLoggedMs, hrtimeDiff]

/-- C1 amended witness: the concrete 2.5 millisecond run. -/
theorem finished_log_elapsed_and_status_witness :
    (executeHandler okHandler 2500000 ⟨"GET", "/", some "example.com"⟩
        res200).2 =
      [Ev.logStarted, Ev.handlerInvoked,
       Ev.logFinished (((2500000 % NS_PER_SEC : Nat) : ℚ) / 1000000) 200] :=
  finished_log_elapsed_and_status okHandler 2500000
    ⟨"GET", "/", some "example.com"⟩ res200 res200 (by simp) rfl

/-- C2 counterexample: serving one concrete request through the HTTP routes
produces one handler-construction event inside the request trace, and two
requests produce two constructions: the normalized handler is built anew in
the route callback on each request, not once at registration. -/
theorem handler_constructed_in_request_counterexample :
    ((serve SignatureType.http okHandler 0 ⟨"GET", "/", none⟩ res200).2.count
        Ev.handlerConstructed) = 1 ∧
    (((serve SignatureType.http okHandler 0 ⟨"GET", "/", none⟩ res200).2 ++
        (serve SignatureType.http okHandler 0 ⟨"POST", "/a", none⟩
          res200).2).count Ev.handlerConstructed) = 2 := by
  constructor <;>
    simp [serve, registerFunctionRoutes, serveRoutes, routeMatches,
      patternMatches, executeHandler, okHandler, shouldLogExecutionTime,
      res200, List.count_cons, List.count_append]

/-- C2 amended: on every request, through the routes of every signature
type, the number of handler constructions in the trace equals the number of
handler invocations: a fresh normalized handler is constructed inside the
route callback exactly once per request that reaches the catch-all route,
and no construction happens for requests that never reach it. -/
theorem handler_constructed_once_per_invocation
    (sig : SignatureType) (h : HandlerBehaviour) (d : Nat) (req : Request)
    (res : Response) :
    (serve sig h d req res).2.count Ev.handlerConstructed =
      (serve sig h d req res).2.count Ev.handlerInvoked := by
  obtain ⟨m, p, host⟩ := req
  by_cases hf : (p == "/favicon.ico" || p == "/robots.txt") = true <;>
    by_cases hm : (m == "POST") = true <;>
      cases hres : h ⟨m, p, host⟩ res <;>
        cases hl : shouldLogExecutionTime ⟨m, p, host⟩ <;>
          cases sig <;>
            simp [serve, registerFunctionRoutes, serveRoutes, routeMatches,
              patternMatches, executeHandler, hres, hl, hf, hm,
              List.count_cons]

end FunctionsFramework
